import Mathlib

/-!
Verification of the Kinetix coordinate-mapping and interaction-control
subsystem: a shallow embedding of `calculateImageCoordinates`, `pctToScreen`,
`cropImage`, the probe tip-offset geometry, `handleProbeRelease`,
`handleScanQuery` and the `handleSendMessage` intent router, with theorems
about contain-fit geometry, round-trips, letterbox rejection, crop bounds,
the analyzer fallback chain, busy-flag discipline and intent precedence.

Screen geometry uses exact rationals; `Math.round` is embedded as
`⌊q + 1/2⌋` (JavaScript rounds half toward positive infinity).
-/

set_option autoImplicit false

namespace Kinetix

/-- `getBoundingClientRect()` of the preview container: left, top, width, height. -/
structure Rect where
  left : ℚ
  top : ℚ
  width : ℚ
  height : ℚ
  deriving DecidableEq, Repr

/-- `imgDims`: natural pixel dimensions of the loaded source image. -/
structure Dims where
  width : ℚ
  height : ℚ
  deriving DecidableEq, Repr

/-- Return value of `calculateImageCoordinates`: integer percentages plus
a validity flag. -/
structure Coords where
  xPct : ℤ
  yPct : ℤ
  valid : Bool
  deriving DecidableEq, Repr

/-- JavaScript `Math.round`: round half toward positive infinity. -/
def jround (q : ℚ) : ℤ := ⌊q + 1/2⌋

/-- The "contain"-fit block shared verbatim by `calculateImageCoordinates`
(part_000 lines 568-585) and `pctToScreen` (lines 612-627): displayed
size of the image inside the container and the centering offsets. -/
structure Fit where
  displayedWidth : ℚ
  displayedHeight : ℚ
  offsetX : ℚ
  offsetY : ℚ
  deriving DecidableEq, Repr

def containFit (container : Rect) (imgDims : Dims) : Fit :=
  let containerRatio := container.width / container.height
  let imageRatio := imgDims.width / imgDims.height
  if containerRatio > imageRatio then
    -- container wider than image: image touches top/bottom, bars on the sides
    let displayedHeight := container.height
    let displayedWidth := displayedHeight * imageRatio
    ⟨displayedWidth, displayedHeight, (container.width - displayedWidth) / 2, 0⟩
  else
    -- container taller than image: image touches sides, bars on top/bottom
    let displayedWidth := container.width
    let displayedHeight := displayedWidth / imageRatio
    ⟨displayedWidth, displayedHeight, 0, (container.height - displayedHeight) / 2⟩

/-- `calculateImageCoordinates` (part_000 lines 552-606, identical copy in
LivePreview.tsx lines 336-390).  `container?` is `none` when the preview
container ref is missing, `imgDims?` is `none` when natural dimensions have
not loaded. -/
def calculateImageCoordinates (container? : Option Rect) (imgDims? : Option Dims)
    (screenX screenY : ℚ) : Coords :=
  match imgDims? with
  | none =>
    -- fallback if dimensions not loaded or container missing
    match container? with
    | some rect =>
      let xPct := max 0 (min 100 (jround ((screenX - rect.left) / rect.width * 100)))
      let yPct := max 0 (min 100 (jround ((screenY - rect.top) / rect.height * 100)))
      ⟨xPct, yPct, true⟩
    | none => ⟨0, 0, false⟩
  | some imgDims =>
    match container? with
    | none => ⟨0, 0, false⟩
    | some container =>
      let f := containFit container imgDims
      let relMouseX := screenX - container.left
      let relMouseY := screenY - container.top
      if relMouseX < f.offsetX ∨ relMouseX > f.offsetX + f.displayedWidth ∨
         relMouseY < f.offsetY ∨ relMouseY > f.offsetY + f.displayedHeight then
        ⟨0, 0, false⟩  -- user clicked on the black bars
      else
        ⟨jround ((relMouseX - f.offsetX) / f.displayedWidth * 100),
         jround ((relMouseY - f.offsetY) / f.displayedHeight * 100), true⟩

/-- `pctToScreen` (part_000 lines 609-639): percentage → screen point for
auto-pilot, returning the probe BODY top-left (tip target minus (28, 80));
`none` when the container ref or image dimensions are unavailable. -/
def pctToScreen (container? : Option Rect) (imgDims? : Option Dims)
    (xPct yPct : ℚ) : Option (ℚ × ℚ) :=
  match container?, imgDims? with
  | some container, some imgDims =>
    let f := containFit container imgDims
    let screenX := container.left + f.offsetX + f.displayedWidth * (xPct / 100)
    let screenY := container.top + f.offsetY + f.displayedHeight * (yPct / 100)
    some (screenX - 28, screenY - 80)
  | _, _ => none

/-- Probe tip from the probe body top-left, as used by the manual-drag path
(`getTipPosition`, part_000 lines 103-108). -/
def getTipPosition (currentX currentY : ℚ) : ℚ × ℚ :=
  (currentX + 28, currentY + 80)

/-- Probe tip as computed inline by the auto-pilot effect
(part_000 lines 70-71: `tipX = moveTo.x + 28; tipY = moveTo.y + 80`). -/
def autoPilotTip (moveToX moveToY : ℚ) : ℚ × ℚ :=
  (moveToX + 28, moveToY + 80)

/-- The crop source rectangle computed by `cropImage`
(part_000 lines 727-738, identical copy in LivePreview.tsx lines 403-414). -/
structure CropRect where
  srcX : ℚ
  srcY : ℚ
  cropWidth : ℚ
  cropHeight : ℚ
  deriving DecidableEq, Repr

def cropSourceRect (imgDims : Dims) (xPct yPct : ℚ) : CropRect :=
  let cropWidth := min (imgDims.width * (2/10)) 400   -- max 400px or 20% of width
  let cropHeight := min (imgDims.height * (2/10)) 400
  let centerX := (xPct / 100) * imgDims.width
  let centerY := (yPct / 100) * imgDims.height
  let srcX := max 0 (min (centerX - cropWidth / 2) (imgDims.width - cropWidth))
  let srcY := max 0 (min (centerY - cropHeight / 2) (imgDims.height - cropHeight))
  ⟨srcX, srcY, cropWidth, cropHeight⟩

/-- `handleProbeRelease` (part_000 lines 760-777): returns `some (xPct, yPct)`
when a scan query (the only path to a remote call) is triggered, `none`
when the release is swallowed (missing container/callback or invalid
letterbox target). -/
def handleProbeRelease (container? : Option Rect) (imgDims? : Option Dims)
    (hasAskCallback : Bool) (screenX screenY : ℚ) : Option (ℤ × ℤ) :=
  match container? with
  | none => none
  | some _ =>
    if hasAskCallback then
      let coords := calculateImageCoordinates container? imgDims? screenX screenY
      if coords.valid then some (coords.xPct, coords.yPct) else none
    else none

/-! ### Scan request chain (`handleScanQuery`, part_000 lines 779-854) -/

/-- Structured reply of `analyzeBiologicalEntity` (the fields the chain reads). -/
structure BioResult where
  isBiological : Bool
  confidence : ℚ
  deriving DecidableEq, Repr

/-- Structured reply of `analyzeTechnicalComponent` (the fields the chain reads). -/
structure TechResult where
  isTechnical : Bool
  confidence : ℚ
  deriving DecidableEq, Repr

/-- Behaviour of the three awaited remote calls during one scan:
each either resolves (`Except.ok`) or rejects (`Except.error`). -/
structure ScanOracle where
  bio : Except Unit BioResult
  tech : Except Unit TechResult
  generic : Except Unit String
  deriving Repr

/-- How a scan chain terminated. -/
inductive ScanOutcome where
  | bioSuccess (r : BioResult)
  | techSuccess (r : TechResult)
  | genericAnswer (s : String)
  | scanFailed
  deriving DecidableEq, Repr

/-- Observable trace of one `handleScanQuery` run: which analyzers were
awaited, how the chain ended, how many times `setIsChatLoading(false)`
ran, and the final value of the loading flag. -/
structure ScanTrace where
  bioCalled : Bool
  techCalled : Bool
  genericCalled : Bool
  outcome : ScanOutcome
  loadingResets : ℕ
  loadingFinal : Bool
  deriving DecidableEq, Repr

/-- `handleScanQuery` (part_000 lines 779-854).  `hasCrop` is whether
`cropImage` yielded a crop (`cleanCrop` truthy).  JavaScript `finally`
semantics: the `finally` block's `setIsChatLoading(false)` runs exactly
once in every path, including after the early `return`s of the bio and
tech success branches, which each also call `setIsChatLoading(false)`
themselves first. -/
def handleScanQuery (hasCrop : Bool) (o : ScanOracle) : ScanTrace :=
  if hasCrop then
    match o.bio with
    | .error _ => ⟨true, false, false, .scanFailed, 1, false⟩
    | .ok bioResult =>
      if bioResult.isBiological ∧ bioResult.confidence > 50 then
        -- explicit reset before the early return, then the finally block
        ⟨true, false, false, .bioSuccess bioResult, 2, false⟩
      else
        match o.tech with
        | .error _ => ⟨true, true, false, .scanFailed, 1, false⟩
        | .ok techResult =>
          if techResult.isTechnical then
            ⟨true, true, false, .techSuccess techResult, 2, false⟩
          else
            match o.generic with
            | .error _ => ⟨true, true, true, .scanFailed, 1, false⟩
            | .ok s => ⟨true, true, true, .genericAnswer s, 1, false⟩
  else
    match o.generic with
    | .error _ => ⟨false, false, false, .scanFailed, 1, false⟩
    | .ok s => ⟨false, false, false, .genericAnswer s, 1, false⟩

/-! ### Intent routing (`handleSendMessage`, part_000 lines 951-1014) -/

/-- Does `hay` start with `pat`? (character lists) -/
def listHasPrefix : List Char → List Char → Bool
  | _, [] => true
  | [], _ :: _ => false
  | a :: hay, b :: pat => a = b && listHasPrefix hay pat

/-- Does `pat` occur as a contiguous substring of `hay`? -/
def listHasSub (hay pat : List Char) : Bool :=
  match hay with
  | [] => pat.isEmpty
  | _ :: t => listHasPrefix hay pat || listHasSub t pat

/-- Case-insensitive alternation test, embedding `/a|b|.../i.test(s)`. -/
def regexTest (pats : List String) (s : String) : Bool :=
  pats.any fun p => listHasSub (s.data.map Char.toLower) (p.data.map Char.toLower)

/-- The auto-pilot detection pattern (part_000 line 961). -/
def findPatterns : List String :=
  ["find", "locate", "search", "where is", "cari", "mana", "detect"]

/-- The patching detection pattern (part_000 line 987). -/
def modifyPatterns : List String :=
  ["fix", "change", "broken", "doesn\x27t work", "add", "remove", "modify",
   "adjust", "salah", "rosak", "tak boleh"]

inductive Intent where
  | locate
  | modify
  | query
  deriving DecidableEq, Repr

/-- The routing decision of `handleSendMessage`: the locate branch fires only
when the find pattern matches AND `creation?.originalImage` is present
(`hasImage`); otherwise the modify pattern is tried, else general QA. -/
def routeMessage (input : String) (hasImage : Bool) : Intent :=
  if regexTest findPatterns input && hasImage then .locate
  else if regexTest modifyPatterns input then .modify
  else .query

/-! ## Theorems -/

/-- JavaScript rounding is within 1/2 of its argument. -/
theorem jround_near (q : ℚ) : |(jround q : ℚ) - q| ≤ 1/2 := by
  rw [abs_le]
  have h1 : ((⌊q + 1/2⌋ : ℤ) : ℚ) ≤ q + 1/2 := Int.floor_le (q + 1/2)
  have h2 : q + 1/2 < ((⌊q + 1/2⌋ : ℤ) : ℚ) + 1 := Int.lt_floor_add_one (q + 1/2)
  constructor <;> simp only [jround] <;> linarith

/-- One axis of the inverse mapping: converting a coordinate to a rounded
percentage of the displayed size and back moves it by at most
`displayedSize / 200`. -/
theorem roundtrip_axis (dw base off s : ℚ) (hdw : 0 < dw) :
    |base + off + dw * (((jround ((s - base - off) / dw * 100) : ℤ) : ℚ) / 100) - s| ≤
      dw / 200 := by
  set q : ℚ := (s - base - off) / dw * 100 with hq
  have hdw0 : dw ≠ 0 := ne_of_gt hdw
  have hs : s = base + off + dw * q / 100 := by
    rw [hq]; field_simp
  have h2 : base + off + dw * (((jround q : ℤ) : ℚ) / 100) - s =
      dw / 100 * (((jround q : ℤ) : ℚ) - q) := by
    rw [hs]; ring
  rw [h2, abs_mul, abs_of_pos (by positivity : (0:ℚ) < dw / 100)]
  have hj := jround_near q
  calc dw / 100 * |((jround q : ℤ) : ℚ) - q| ≤ dw / 100 * (1/2) :=
        mul_le_mul_of_nonneg_left hj (by positivity)
    _ = dw / 200 := by ring

/-- C2: with positive container and asset dimensions, when the container
ratio exceeds the image ratio the contain-fit displayed height equals the
container height and the displayed width is at most the container width;
when the container ratio is at most the image ratio, the displayed width
equals the container width and the displayed height is at most the
container height. -/
theorem containFit_branches (c : Rect) (d : Dims)
    (hcw : 0 < c.width) (hch : 0 < c.height) (hiw : 0 < d.width) (hih : 0 < d.height) :
    (c.width / c.height > d.width / d.height →
      (containFit c d).displayedHeight = c.height ∧
      (containFit c d).displayedWidth ≤ c.width) ∧
    (c.width / c.height ≤ d.width / d.height →
      (containFit c d).displayedWidth = c.width ∧
      (containFit c d).displayedHeight ≤ c.height) := by
  constructor
  · intro hgt
    simp only [containFit, if_pos hgt]
    refine ⟨trivial, ?_⟩
    have h := (lt_div_iff₀ hch).mp hgt
    calc c.height * (d.width / d.height) = d.width / d.height * c.height := by ring
      _ ≤ c.width := le_of_lt h
  · intro hle
    simp only [containFit, if_neg (not_lt.mpr hle)]
    refine ⟨trivial, ?_⟩
    have hr : 0 < d.width / d.height := div_pos hiw hih
    rw [div_le_iff₀ hr]
    calc c.width ≤ d.width / d.height * c.height := (div_le_iff₀ hch).mp hle
      _ = c.height * (d.width / d.height) := by ring

/-- Witness for C2 at the spec scenario: 200×100 container, 100×100 asset. -/
theorem containFit_branches_witness :
    (containFit ⟨0, 0, 200, 100⟩ ⟨100, 100⟩).displayedHeight = 100 ∧
    (containFit ⟨0, 0, 200, 100⟩ ⟨100, 100⟩).displayedWidth ≤ 200 := by
  have h := containFit_branches ⟨0, 0, 200, 100⟩ ⟨100, 100⟩
    (by norm_num) (by norm_num) (by norm_num) (by norm_num)
  exact h.1 (by norm_num)

/-- C3: a screen point inside the container rectangle but outside the
displayed image rectangle (the letterbox bars) gets `valid = false` from
`calculateImageCoordinates`, and `handleProbeRelease` triggers no scan
query (hence no remote call) for it. -/
theorem letterbox_rejected (c : Rect) (d : Dims) (sx sy : ℚ)
    (hin : c.left ≤ sx ∧ sx ≤ c.left + c.width ∧ c.top ≤ sy ∧ sy ≤ c.top + c.height)
    (hout : sx - c.left < (containFit c d).offsetX ∨
            sx - c.left > (containFit c d).offsetX + (containFit c d).displayedWidth ∨
            sy - c.top < (containFit c d).offsetY ∨
            sy - c.top > (containFit c d).offsetY + (containFit c d).displayedHeight) :
    (calculateImageCoordinates (some c) (some d) sx sy).valid = false ∧
    handleProbeRelease (some c) (some d) true sx sy = none := by
  have hcalc : calculateImageCoordinates (some c) (some d) sx sy = ⟨0, 0, false⟩ := by
    simp only [calculateImageCoordinates]
    rw [if_pos hout]
  refine ⟨by rw [hcalc], ?_⟩
  simp only [handleProbeRelease, hcalc, if_true]
  rfl

/-- Witness for C3 at the spec scenario: click at (10,50) lands in the left
letterbox bar (offsetX = 50). -/
theorem letterbox_rejected_witness :
    (calculateImageCoordinates (some ⟨0, 0, 200, 100⟩) (some ⟨100, 100⟩) 10 50).valid
      = false ∧
    handleProbeRelease (some ⟨0, 0, 200, 100⟩) (some ⟨100, 100⟩) true 10 50 = none :=
  letterbox_rejected ⟨0, 0, 200, 100⟩ ⟨100, 100⟩ 10 50
    ⟨by norm_num, by norm_num, by norm_num, by norm_num⟩
    (Or.inl (by norm_num [containFit]))

/-- C10: whenever `calculateImageCoordinates` returns `valid = false`, the
returned percentages are exactly 0 and 0. -/
theorem invalid_coords_zero (container? : Option Rect) (imgDims? : Option Dims)
    (sx sy : ℚ)
    (h : (calculateImageCoordinates container? imgDims? sx sy).valid = false) :
    (calculateImageCoordinates container? imgDims? sx sy).xPct = 0 ∧
    (calculateImageCoordinates container? imgDims? sx sy).yPct = 0 := by
  cases imgDims? with
  | none =>
    cases container? with
    | none => exact ⟨rfl, rfl⟩
    | some rect => simp [calculateImageCoordinates] at h
  | some d =>
    cases container? with
    | none => exact ⟨rfl, rfl⟩
    | some c =>
      simp only [calculateImageCoordinates] at h ⊢
      split at h
      · split
        · exact ⟨rfl, rfl⟩
        · simp_all
      · simp at h

/-- Witness for C10: a letterbox click returns coordinates (0,0). -/
theorem invalid_coords_zero_witness :
    (calculateImageCoordinates (some ⟨0, 0, 200, 100⟩) (some ⟨100, 100⟩) 190 50).xPct
      = 0 ∧
    (calculateImageCoordinates (some ⟨0, 0, 200, 100⟩) (some ⟨100, 100⟩) 190 50).yPct
      = 0 :=
  invalid_coords_zero (some ⟨0, 0, 200, 100⟩) (some ⟨100, 100⟩) 190 50
    (by norm_num [calculateImageCoordinates, containFit])

/-- C7: for target percentages in [0,100]×[0,100] and a positive-dimension
asset, the crop source rectangle of `cropImage` lies fully inside
[0, assetWidth] × [0, assetHeight]. -/
theorem cropSourceRect_in_bounds (d : Dims) (xPct yPct : ℚ)
    (hx0 : 0 ≤ xPct) (hx1 : xPct ≤ 100) (hy0 : 0 ≤ yPct) (hy1 : yPct ≤ 100)
    (hw : 0 < d.width) (hh : 0 < d.height) :
    0 ≤ (cropSourceRect d xPct yPct).srcX ∧
    (cropSourceRect d xPct yPct).srcX + (cropSourceRect d xPct yPct).cropWidth
      ≤ d.width ∧
    0 ≤ (cropSourceRect d xPct yPct).srcY ∧
    (cropSourceRect d xPct yPct).srcY + (cropSourceRect d xPct yPct).cropHeight
      ≤ d.height := by
  simp only [cropSourceRect]
  have hcw : min (d.width * (2/10)) 400 ≤ d.width :=
    le_trans (min_le_left _ _) (by linarith)
  have hch : min (d.height * (2/10)) 400 ≤ d.height :=
    le_trans (min_le_left _ _) (by linarith)
  refine ⟨le_max_left _ _, ?_, le_max_left _ _, ?_⟩
  · have hb : max 0 (min ((xPct / 100) * d.width - min (d.width * (2/10)) 400 / 2)
        (d.width - min (d.width * (2/10)) 400)) ≤ d.width - min (d.width * (2/10)) 400 :=
      max_le (by linarith) (min_le_right _ _)
    linarith
  · have hb : max 0 (min ((yPct / 100) * d.height - min (d.height * (2/10)) 400 / 2)
        (d.height - min (d.height * (2/10)) 400)) ≤
          d.height - min (d.height * (2/10)) 400 :=
      max_le (by linarith) (min_le_right _ _)
    linarith

/-- Witness for C7: 1000×800 asset at the extreme corner (100,100). -/
theorem cropSourceRect_in_bounds_witness :
    0 ≤ (cropSourceRect ⟨1000, 800⟩ 100 100).srcX ∧
    (cropSourceRect ⟨1000, 800⟩ 100 100).srcX +
      (cropSourceRect ⟨1000, 800⟩ 100 100).cropWidth ≤ (1000 : ℚ) ∧
    0 ≤ (cropSourceRect ⟨1000, 800⟩ 100 100).srcY ∧
    (cropSourceRect ⟨1000, 800⟩ 100 100).srcY +
      (cropSourceRect ⟨1000, 800⟩ 100 100).cropHeight ≤ (800 : ℚ) :=
  cropSourceRect_in_bounds ⟨1000, 800⟩ 100 100 (by norm_num) (by norm_num)
    (by norm_num) (by norm_num) (by norm_num) (by norm_num)

/-- C1 counterexample: the stated round-trip fails.  At the spec scenario
(200×100 container, 100×100 asset) the point (100,50) comes back from
`pctToScreen` as (72,-30) — off by the probe-body offset (28,80) — and
even after adding that offset back, a 1000×1000 display maps (4,4) to
percentage (0,0), which returns to (0,0): an error of 4 pixels. -/
theorem roundtrip_claim_false :
    pctToScreen (some ⟨0, 0, 200, 100⟩) (some ⟨100, 100⟩)
        (((calculateImageCoordinates (some ⟨0, 0, 200, 100⟩) (some ⟨100, 100⟩)
            100 50).xPct : ℤ) : ℚ)
        (((calculateImageCoordinates (some ⟨0, 0, 200, 100⟩) (some ⟨100, 100⟩)
            100 50).yPct : ℤ) : ℚ)
      = some (72, -30) ∧
    (1 : ℚ) < |(72 : ℚ) - 100| ∧
    pctToScreen (some ⟨0, 0, 1000, 1000⟩) (some ⟨500, 500⟩)
        (((calculateImageCoordinates (some ⟨0, 0, 1000, 1000⟩) (some ⟨500, 500⟩)
            4 4).xPct : ℤ) : ℚ)
        (((calculateImageCoordinates (some ⟨0, 0, 1000, 1000⟩) (some ⟨500, 500⟩)
            4 4).yPct : ℤ) : ℚ)
      = some (-28, -80) ∧
    (1 : ℚ) < |(-28 : ℚ) + 28 - 4| := by
  have h1 : calculateImageCoordinates (some ⟨0, 0, 200, 100⟩) (some ⟨100, 100⟩) 100 50
      = ⟨50, 50, true⟩ := by
    norm_num [calculateImageCoordinates, containFit, jround]
  have h2 : calculateImageCoordinates (some ⟨0, 0, 1000, 1000⟩) (some ⟨500, 500⟩) 4 4
      = ⟨0, 0, true⟩ := by
    norm_num [calculateImageCoordinates, containFit, jround]
  rw [h1, h2]
  refine ⟨?_, by norm_num, ?_, by norm_num⟩ <;> norm_num [pctToScreen, containFit]

/-- C1 amended: for a point strictly inside the displayed image rectangle,
the body position returned by `pctToScreen` plus the probe tip offset
(28, 80) recovers the point to within `displayedSize / 200` on each axis
(±1 pixel only when the displayed dimension is at most 200 pixels). -/
theorem roundtrip_within_rounding (c : Rect) (d : Dims) (sx sy : ℚ)
    (hdw : 0 < (containFit c d).displayedWidth)
    (hdh : 0 < (containFit c d).displayedHeight)
    (hx1 : c.left + (containFit c d).offsetX < sx)
    (hx2 : sx < c.left + (containFit c d).offsetX + (containFit c d).displayedWidth)
    (hy1 : c.top + (containFit c d).offsetY < sy)
    (hy2 : sy < c.top + (containFit c d).offsetY + (containFit c d).displayedHeight) :
    (calculateImageCoordinates (some c) (some d) sx sy).valid = true ∧
    ∀ p : ℚ × ℚ,
      pctToScreen (some c) (some d)
          (((calculateImageCoordinates (some c) (some d) sx sy).xPct : ℤ) : ℚ)
          (((calculateImageCoordinates (some c) (some d) sx sy).yPct : ℤ) : ℚ)
        = some p →
      |p.1 + 28 - sx| ≤ (containFit c d).displayedWidth / 200 ∧
      |p.2 + 80 - sy| ≤ (containFit c d).displayedHeight / 200 := by
  have hcalc : calculateImageCoordinates (some c) (some d) sx sy =
      ⟨jround ((sx - c.left - (containFit c d).offsetX) /
          (containFit c d).displayedWidth * 100),
       jround ((sy - c.top - (containFit c d).offsetY) /
          (containFit c d).displayedHeight * 100), true⟩ := by
    simp only [calculateImageCoordinates]
    rw [if_neg]
    push_neg
    refine ⟨by linarith, by linarith, by linarith, by linarith⟩
  rw [hcalc]
  refine ⟨rfl, ?_⟩
  intro p hp
  simp only [pctToScreen, Option.some.injEq] at hp
  rw [← hp]
  constructor
  · have h := roundtrip_axis (containFit c d).displayedWidth c.left
      (containFit c d).offsetX sx hdw
    calc |c.left + (containFit c d).offsetX + (containFit c d).displayedWidth *
            (((jround ((sx - c.left - (containFit c d).offsetX) /
              (containFit c d).displayedWidth * 100) : ℤ) : ℚ) / 100) - 28 + 28 - sx|
        = |c.left + (containFit c d).offsetX + (containFit c d).displayedWidth *
            (((jround ((sx - c.left - (containFit c d).offsetX) /
              (containFit c d).displayedWidth * 100) : ℤ) : ℚ) / 100) - sx| := by
          ring_nf
      _ ≤ (containFit c d).displayedWidth / 200 := h
  · have h := roundtrip_axis (containFit c d).displayedHeight c.top
      (containFit c d).offsetY sy hdh
    calc |c.top + (containFit c d).offsetY + (containFit c d).displayedHeight *
            (((jround ((sy - c.top - (containFit c d).offsetY) /
              (containFit c d).displayedHeight * 100) : ℤ) : ℚ) / 100) - 80 + 80 - sy|
        = |c.top + (containFit c d).offsetY + (containFit c d).displayedHeight *
            (((jround ((sy - c.top - (containFit c d).offsetY) /
              (containFit c d).displayedHeight * 100) : ℤ) : ℚ) / 100) - sy| := by
          ring_nf
      _ ≤ (containFit c d).displayedHeight / 200 := h

/-- Witness for the amended C1 at the spec scenario point (100,50). -/
theorem roundtrip_within_rounding_witness :
    (calculateImageCoordinates (some ⟨0, 0, 200, 100⟩) (some ⟨100, 100⟩) 100 50).valid
      = true ∧
    ∀ p : ℚ × ℚ,
      pctToScreen (some ⟨0, 0, 200, 100⟩) (some ⟨100, 100⟩)
          (((calculateImageCoordinates (some ⟨0, 0, 200, 100⟩) (some ⟨100, 100⟩)
              100 50).xPct : ℤ) : ℚ)
          (((calculateImageCoordinates (some ⟨0, 0, 200, 100⟩) (some ⟨100, 100⟩)
              100 50).yPct : ℤ) : ℚ)
        = some p →
      |p.1 + 28 - 100| ≤
        (containFit ⟨0, 0, 200, 100⟩ ⟨100, 100⟩).displayedWidth / 200 ∧
      |p.2 + 80 - 50| ≤
        (containFit ⟨0, 0, 200, 100⟩ ⟨100, 100⟩).displayedHeight / 200 :=
  roundtrip_within_rounding ⟨0, 0, 200, 100⟩ ⟨100, 100⟩ 100 50
    (by norm_num [containFit]) (by norm_num [containFit]) (by norm_num [containFit])
    (by norm_num [containFit]) (by norm_num [containFit]) (by norm_num [containFit])

/-- C8: the probe tip offset is the same constant (28, 80) in the
auto-navigate path as in the manual-drag path (`getTipPosition`), and
`pctToScreen` subtracts exactly that offset, so the tip of the probe body
it returns lands exactly on the computed target screen point. -/
theorem tip_offset_consistent (c : Rect) (d : Dims) (xp yp : ℚ) (p : ℚ × ℚ)
    (hp : pctToScreen (some c) (some d) xp yp = some p) :
    autoPilotTip p.1 p.2 = getTipPosition p.1 p.2 ∧
    getTipPosition p.1 p.2 =
      (c.left + (containFit c d).offsetX +
         (containFit c d).displayedWidth * (xp / 100),
       c.top + (containFit c d).offsetY +
         (containFit c d).displayedHeight * (yp / 100)) := by
  simp only [pctToScreen, Option.some.injEq] at hp
  refine ⟨rfl, ?_⟩
  rw [← hp]
  simp only [getTipPosition, Prod.mk.injEq]
  constructor <;> ring

/-- Witness for C8: with the 200×100 container and 100×100 asset, target
(50,50) gives body position (72,-30), whose tip is back at (100,50). -/
theorem tip_offset_consistent_witness :
    autoPilotTip (72 : ℚ) (-30 : ℚ) = getTipPosition 72 (-30) ∧
    getTipPosition (72 : ℚ) (-30 : ℚ) =
      ((0 : ℚ) + (containFit ⟨0, 0, 200, 100⟩ ⟨100, 100⟩).offsetX +
         (containFit ⟨0, 0, 200, 100⟩ ⟨100, 100⟩).displayedWidth * (50 / 100),
       (0 : ℚ) + (containFit ⟨0, 0, 200, 100⟩ ⟨100, 100⟩).offsetY +
         (containFit ⟨0, 0, 200, 100⟩ ⟨100, 100⟩).displayedHeight * (50 / 100)) := by
  have h := tip_offset_consistent ⟨0, 0, 200, 100⟩ ⟨100, 100⟩ 50 50 (72, -30)
    (by norm_num [pctToScreen, containFit])
  exact h

/-- C6 counterexample: with a zero-width container (and a well-formed
asset) the point lying exactly on the collapsed displayed rectangle is
returned with `valid = true`, not as an invalid result. -/
theorem degenerate_container_marked_valid :
    (calculateImageCoordinates (some ⟨0, 0, 0, 100⟩) (some ⟨100, 100⟩) 0 50).valid
      = true := by
  norm_num [calculateImageCoordinates, containFit]

/-- C6 amended: the mappings are total (never raise).  For a zero-width
container with positive height and a positive-dimension asset, a screen
point is marked valid exactly when it lies on the collapsed displayed
rectangle — the single point (left, top + height/2) — and every other
point is rejected as invalid; `pctToScreen` returns a (degenerate) point
rather than null. -/
theorem zero_width_container_behavior (l t ch iw ih px py sx sy : ℚ)
    (hch : 0 < ch) (hiw : 0 < iw) (hih : 0 < ih) :
    ((calculateImageCoordinates (some ⟨l, t, 0, ch⟩) (some ⟨iw, ih⟩) sx sy).valid
        = true ↔ sx = l ∧ sy = t + ch / 2) ∧
    (pctToScreen (some ⟨l, t, 0, ch⟩) (some ⟨iw, ih⟩) px py).isSome = true := by
  have hr : ¬((0 : ℚ) / ch > iw / ih) := by
    rw [zero_div]
    exact not_lt.mpr (le_of_lt (div_pos hiw hih))
  have hfit : containFit ⟨l, t, 0, ch⟩ ⟨iw, ih⟩ = ⟨0, 0, 0, ch / 2⟩ := by
    simp only [containFit]
    rw [if_neg hr]
    simp [zero_div]
  refine ⟨?_, rfl⟩
  simp only [calculateImageCoordinates, hfit]
  split_ifs with hg
  · refine iff_of_false (by simp) ?_
    rintro ⟨rfl, rfl⟩
    rcases hg with h | h | h | h <;> simp_all
  · push_neg at hg
    obtain ⟨h1, h2, h3, h4⟩ := hg
    simp only [add_zero] at h2 h4
    exact iff_of_true rfl ⟨by linarith, by linarith⟩

/-- Witness for the amended C6 at a concrete degenerate container. -/
theorem zero_width_container_behavior_witness :
    (((calculateImageCoordinates (some ⟨0, 0, 0, 100⟩) (some ⟨100, 100⟩) 3 50).valid
        = true) ↔ (3 : ℚ) = 0 ∧ (50 : ℚ) = 0 + 100 / 2) ∧
    (pctToScreen (some ⟨0, 0, 0, 100⟩) (some ⟨100, 100⟩) 10 10).isSome = true :=
  zero_width_container_behavior 0 0 100 100 100 10 10 3 50
    (by norm_num) (by norm_num) (by norm_num)

/-- C4 counterexample: a biological classification with confidence exactly
50 is NOT accepted (the code tests `confidence > 50`, strictly): the chain
goes on to call the technical analyzer and resolves with its result. -/
theorem bio_at_threshold_not_accepted :
    (handleScanQuery true ⟨.ok ⟨true, 50⟩, .ok ⟨true, 60⟩, .ok "a"⟩).techCalled
      = true ∧
    (handleScanQuery true ⟨.ok ⟨true, 50⟩, .ok ⟨true, 60⟩, .ok "a"⟩).outcome
      = .techSuccess ⟨true, 60⟩ := by
  norm_num [handleScanQuery]

/-- C4 amended: when the biological analyzer reports an affirmative
classification with confidence strictly above 50, the scan resolves with
the biological result and neither the technical analyzer nor the generic
fallback is invoked. -/
theorem bio_above_threshold_stops (o : ScanOracle) (r : BioResult)
    (hbio : o.bio = .ok r) (hb : r.isBiological = true)
    (hc : (50 : ℚ) < r.confidence) :
    (handleScanQuery true o).outcome = .bioSuccess r ∧
    (handleScanQuery true o).techCalled = false ∧
    (handleScanQuery true o).genericCalled = false := by
  rcases o with ⟨b, t, g⟩
  simp only at hbio
  subst hbio
  simp [handleScanQuery, hb, hc]

/-- Witness for the amended C4 at confidence 90. -/
theorem bio_above_threshold_stops_witness :
    (handleScanQuery true ⟨.ok ⟨true, 90⟩, .ok ⟨false, 0⟩, .ok "a"⟩).outcome
      = .bioSuccess ⟨true, 90⟩ ∧
    (handleScanQuery true ⟨.ok ⟨true, 90⟩, .ok ⟨false, 0⟩, .ok "a"⟩).techCalled
      = false ∧
    (handleScanQuery true ⟨.ok ⟨true, 90⟩, .ok ⟨false, 0⟩, .ok "a"⟩).genericCalled
      = false :=
  bio_above_threshold_stops ⟨.ok ⟨true, 90⟩, .ok ⟨false, 0⟩, .ok "a"⟩ ⟨true, 90⟩
    rfl rfl (by norm_num)

/-- C5 counterexample: in the biological-success branch the loading flag is
cleared twice — once explicitly before the early return and once by the
`finally` block — so it is not reset exactly once per request. -/
theorem busy_flag_double_reset :
    (handleScanQuery true ⟨.ok ⟨true, 90⟩, .ok ⟨true, 60⟩, .ok "a"⟩).loadingResets
      = 2 := by
  norm_num [handleScanQuery]

/-- C5 amended: in every branch of the scan chain (biological success,
technical success, generic fallback, remote-call exception, crop missing)
the loading flag is cleared at least once (the `finally` block runs exactly
once) and at most twice, and the scan always ends with the flag cleared. -/
theorem busy_flag_always_cleared (hasCrop : Bool) (o : ScanOracle) :
    1 ≤ (handleScanQuery hasCrop o).loadingResets ∧
    (handleScanQuery hasCrop o).loadingResets ≤ 2 ∧
    (handleScanQuery hasCrop o).loadingFinal = false := by
  rcases o with ⟨b, t, g⟩
  cases hasCrop <;> cases b <;> cases t <;> cases g <;>
    simp only [handleScanQuery] <;> split_ifs <;> simp

/-- C9 counterexample: the doubly-matching input is routed as Modify, not
Locate, when no source image is loaded, because the locate branch also
requires `creation?.originalImage`. -/
theorem route_without_image_is_modify :
    routeMessage "fix the broken fan, find the switch first" false
      = Intent.modify := by
  rfl

/-- C9 amended: with a source image loaded, intent precedence is fixed —
the Locate pattern is checked first, the Modify pattern only when Locate
did not match, and otherwise the input is a general Query; in particular
the doubly-matching input is routed as Locate.  (Without an image the
Locate branch is skipped even when its pattern matches.) -/
theorem route_fixed_precedence (input : String) :
    (regexTest findPatterns input = true → routeMessage input true = .locate) ∧
    (regexTest findPatterns input = false → regexTest modifyPatterns input = true →
      routeMessage input true = .modify) ∧
    (regexTest findPatterns input = false → regexTest modifyPatterns input = false →
      routeMessage input true = .query) ∧
    routeMessage "fix the broken fan, find the switch first" true = Intent.locate := by
  refine ⟨fun h => ?_, fun h1 h2 => ?_, fun h1 h2 => ?_, by rfl⟩
  · simp [routeMessage, h]
  · simp [routeMessage, h1, h2]
  · simp [routeMessage, h1, h2]

/-- Witness for the amended C9 on the three intent classes. -/
theorem route_fixed_precedence_witness :
    routeMessage "find the red wire" true = Intent.locate ∧
    routeMessage "please adjust it" true = Intent.modify ∧
    routeMessage "hello" true = Intent.query :=
  ⟨(route_fixed_precedence "find the red wire").1 (by rfl),
   (route_fixed_precedence "please adjust it").2.1 (by rfl) (by rfl),
   (route_fixed_precedence "hello").2.2.1 (by rfl) (by rfl)⟩

end Kinetix
